import Mathlib

/-!
Verification of the feature-encoding core of `src/Streamlit_app.py`.

The Python code manipulates insertion-ordered dictionaries; we model a
dictionary as an association list `List (String × α)` together with the
operations the code uses: membership test (`hasKey`, the Python `in`
operator), lookup (`lookupA`, Python `d[k]` / `d.get(k, default)`), and
assignment (`dictSet`, Python `d[k] = v`, which overwrites in place when the
key exists and appends otherwise).

Numeric feature values are modelled as rationals (`ℚ`): the code copies user
numbers verbatim and never computes with them, so any numeric carrier with
decidable equality is faithful.

`prepare_features` returns `Option Features`: `none` models an uncaught
Python exception.  The only possible exception in the function is the
`KeyError` from the unguarded indexing
`encoding_maps['property_type'][input_dict['property_type']]`
(line 144 of the source); every other access is guarded by an `in` test or
uses `.get` with a default.
-/

/-- A single-row pandas DataFrame / Python dict of feature values, as an
insertion-ordered association list. -/
abbrev Features := List (String × ℚ)

/-- Python `k in d` on an association list. -/
def hasKey {α : Type} : List (String × α) → String → Bool
  | [], _ => false
  | (k, _) :: rest, s => if k = s then true else hasKey rest s

/-- Python `d.get(k)` / guarded `d[k]`: value at the first occurrence of the
key, if any. -/
def lookupA {α : Type} : List (String × α) → String → Option α
  | [], _ => none
  | (k, v) :: rest, s => if k = s then some v else lookupA rest s

/-- Replace the value of a binding when its key is `k`, used by `dictSet`. -/
def setPair {α : Type} (k : String) (v : α) (p : String × α) : String × α :=
  if p.1 = k then (p.1, v) else p

/-- Python `d[k] = v`: overwrite the value when the key is present, append a
new binding otherwise. -/
def dictSet {α : Type} (l : List (String × α)) (k : String) (v : α) :
    List (String × α) :=
  if hasKey l k then l.map (setPair k v) else l ++ [(k, v)]

/-- The key sequence of a dict (Python `d.keys()` / DataFrame columns). -/
def keys {α : Type} (l : List (String × α)) : List String := l.map Prod.fst

/-- The raw user-input record consumed by `prepare_features`.  Each field is
optional: the Python function receives a dict that may lack any of these
keys.  (The function reads no other keys, so a record of the fourteen read
keys is a faithful projection of the input dict.) -/
structure RawInput where
  total_area : Option ℚ
  numbere_of_rooms : Option ℚ
  ceiling_height : Option ℚ
  Time_metro : Option ℚ
  pass_elevators : Option ℚ
  cargo_elevators : Option ℚ
  renovation : Option String
  windows : Option String
  children_pets : Option String
  balcony : Option String
  parking : Option String
  bathroom : Option String
  property_type : Option String
  metro : Option String

/-- `encoding_maps['renovation']` (source lines 47-52). -/
def renovationMap : List (String × Int) :=
  [("без ремонта", 0), ("косметический", 1), ("евроремонт", 2),
   ("дизайнерский", 3)]

/-- `encoding_maps['windows']` (source lines 53-57). -/
def windowsMap : List (String × Int) :=
  [("во двор", 0), ("на улицу", 1), ("на улицу и двор", 2)]

/-- `encoding_maps['children_pets']` (source lines 58-62). -/
def childrenPetsMap : List (String × Int) :=
  [("Можно с животными", 0), ("Можно с детьми", 1),
   ("Можно с детьми, Можно с животными", 2)]

/-- `encoding_maps['balcony']` (source lines 63-69). -/
def balconyMap : List (String × Int) :=
  [("нет", 0), ("1 балкон", 1), ("2 балкона", 2), ("лоджия", 3),
   ("2 лоджии", 4)]

/-- `encoding_maps['parking']` (source lines 70-76). -/
def parkingMap : List (String × Int) :=
  [("нет", 0), ("наземная", 1), ("подземная", 2), ("многоуровневая", 3),
   ("на крыше", 4)]

/-- `encoding_maps['bathroom']` (source lines 77-81). -/
def bathroomMap : List (String × Int) :=
  [("совмещенный", 0), ("раздельный", 1), ("2 санузла", 2)]

/-- `encoding_maps['property_type']` (source lines 82-87). -/
def propertyTypeMap : List (String × Int) :=
  [("Квартира", 1), ("Студия", 0), ("Апартаменты", 0), ("Пентхаус", 0)]

/-- `encoding_maps['metro']` (source lines 88-95). -/
def metroMap : List (String × Int) :=
  [("Центр", 1), ("Спутник", 0), ("Восточный", 0), ("Западный", 0),
   ("Северный", 0), ("Южный", 0)]

/-- `features_template` (source lines 99-120): the fifteen feature keys, all
initialised to 0, in source order. -/
def features_template : Features :=
  [("total_area", 0), ("numbere_of_rooms", 0), ("ceiling_height", 0),
   ("Time_metro", 0), ("pass_elevators", 0), ("cargo_elevators", 0),
   ("renovation_encoded", 0), ("windows_encoded", 0),
   ("children_pets_encoded", 0), ("balcony_encoded", 0),
   ("parking_encoded", 0), ("bathroom_encoded", 0), ("metro_encoder", 0),
   ("property_Квартира", 0), ("address_encod", 0)]

/-- One iteration of the numeric loop (source lines 123-126):
`if feature in input_dict: features_template[feature] = input_dict[feature]`. -/
def setNumeric (t : Features) (k : String) : Option ℚ → Features
  | some v => dictSet t k v
  | none => t

/-- One iteration of the categorical loop (source lines 138-140):
`if input_key in input_dict and input_dict[input_key] in encoding_maps[...]:
features_template[feature_key] = encoding_maps[...][input_dict[input_key]]`. -/
def setCategorical (t : Features) (m : List (String × Int)) (k : String) :
    Option String → Features
  | none => t
  | some s =>
    match lookupA m s with
    | some c => dictSet t k (c : ℚ)
    | none => t

/-- The numeric loop of `prepare_features` (source lines 122-126), unrolled in
the loop's iteration order. -/
def applyNumeric (input : RawInput) (t : Features) : Features :=
  let t1 := setNumeric t "total_area" input.total_area
  let t2 := setNumeric t1 "numbere_of_rooms" input.numbere_of_rooms
  let t3 := setNumeric t2 "ceiling_height" input.ceiling_height
  let t4 := setNumeric t3 "Time_metro" input.Time_metro
  let t5 := setNumeric t4 "pass_elevators" input.pass_elevators
  setNumeric t5 "cargo_elevators" input.cargo_elevators

/-- The categorical loop of `prepare_features` (source lines 128-140),
unrolled in the insertion order of `categorical_mappings`. -/
def applyCategorical (input : RawInput) (t : Features) : Features :=
  let t1 := setCategorical t renovationMap "renovation_encoded" input.renovation
  let t2 := setCategorical t1 windowsMap "windows_encoded" input.windows
  let t3 := setCategorical t2 childrenPetsMap "children_pets_encoded"
    input.children_pets
  let t4 := setCategorical t3 balconyMap "balcony_encoded" input.balcony
  let t5 := setCategorical t4 parkingMap "parking_encoded" input.parking
  setCategorical t5 bathroomMap "bathroom_encoded" input.bathroom

/-- The property-type step (source lines 142-144).  The source indexes
`encoding_maps['property_type']` directly, without a guard or a default, so a
present value outside the map raises `KeyError`; that exception is `none`
here. -/
def applyPropertyType (input : RawInput) (t : Features) : Option Features :=
  match input.property_type with
  | none => some t
  | some v =>
    match lookupA propertyTypeMap v with
    | some c => some (dictSet t "property_Квартира" (c : ℚ))
    | none => none

/-- The metro step (source lines 146-149), which uses
`encoding_maps['metro'].get(metro_value, 0)`. -/
def applyMetro (input : RawInput) (t : Features) : Features :=
  match input.metro with
  | none => t
  | some v => dictSet t "metro_encoder" (((lookupA metroMap v).getD 0 : Int) : ℚ)

/-- `prepare_features` (source lines 41-151): numeric loop, categorical loop,
property-type step, metro step, in source order.  `none` models the uncaught
`KeyError` of the property-type step. -/
def prepare_features (input : RawInput) : Option Features :=
  (applyPropertyType input
      (applyCategorical input (applyNumeric input features_template))).map
    (applyMetro input)

/-- `create_input_dataframe` (source lines 153-168).  With `model_features`
present, pandas first zero-fills the expected columns missing from the frame
and then reindexes by `df[model_features]`, so each output column `c` appears
in the order of `model_features` with value `prepared[c]` when that key
exists and 0 otherwise.  With `model_features` absent the single-row frame of
`prepared` is returned unchanged. -/
def create_input_dataframe (prepared : Features)
    (model_features : Option (List String)) : Features :=
  match model_features with
  | none => prepared
  | some cols => cols.map (fun c => (c, (lookupA prepared c).getD 0))

/-- The fixed fifteen-key schema of the encoder's output, in template order. -/
def templateKeys : List String :=
  ["total_area", "numbere_of_rooms", "ceiling_height", "Time_metro",
   "pass_elevators", "cargo_elevators", "renovation_encoded",
   "windows_encoded", "children_pets_encoded", "balcony_encoded",
   "parking_encoded", "bathroom_encoded", "metro_encoder",
   "property_Квартира", "address_encod"]

/-- Value of a numeric output field: the input value verbatim when present,
otherwise the template's 0. -/
def encNum (v : Option ℚ) : ℚ := v.getD 0

/-- Value of an ordinal categorical output field: the table code when the
input value is present and in the table's domain, otherwise the template's
0. -/
def encOrd (m : List (String × Int)) : Option String → ℚ
  | none => 0
  | some s =>
    match lookupA m s with
    | some c => (c : ℚ)
    | none => 0

/-- Value of the `metro_encoder` output field: `.get(v, 0)` when present,
otherwise the template's 0. -/
def encMetro : Option String → ℚ
  | none => 0
  | some s => (((lookupA metroMap s).getD 0 : Int) : ℚ)

/-- Value of the `property_Квартира` output field, or `none` when the step
raises. -/
def encProp : Option String → Option ℚ
  | none => some 0
  | some s => (lookupA propertyTypeMap s).map (fun c => (c : ℚ))

/-- The property-type step succeeds exactly when the field is absent or its
value is a key of `propertyTypeMap`. -/
def propertyTypeInDomain : Option String → Bool
  | none => true
  | some v => (lookupA propertyTypeMap v).isSome

/-! ### Dictionary lemmas -/

theorem keys_cons {α : Type} (k : String) (v : α) (rest : List (String × α)) :
    keys ((k, v) :: rest) = k :: keys rest := rfl

theorem hasKey_eq_mem {α : Type} (l : List (String × α)) (k : String) :
    hasKey l k = true ↔ k ∈ keys l := by
  induction l with
  | nil => simp [hasKey, keys]
  | cons p rest ih =>
    obtain ⟨k', v⟩ := p
    by_cases h : k' = k
    · subst h; simp [hasKey, keys_cons]
    · simp [hasKey, keys_cons, h, Ne.symm h, ih]

theorem setPair_pos {α : Type} (k : String) (v : α) (k' : String) (v' : α)
    (h : k' = k) : setPair k v (k', v') = (k', v) := by
  simp [setPair, h]

theorem setPair_neg {α : Type} (k : String) (v : α) (k' : String) (v' : α)
    (h : ¬k' = k) : setPair k v (k', v') = (k', v') := by
  simp [setPair, h]

theorem lookupA_map_set {α : Type} (l : List (String × α)) (k : String)
    (v : α) (h : hasKey l k = true) :
    lookupA (l.map (setPair k v)) k = some v := by
  induction l with
  | nil => simp [hasKey] at h
  | cons p rest ih =>
    obtain ⟨k', v'⟩ := p
    rw [List.map_cons]
    by_cases hk : k' = k
    · rw [setPair_pos k v k' v' hk]
      subst hk
      simp [lookupA]
    · rw [setPair_neg k v k' v' hk]
      simp [lookupA, hk]
      exact ih (by simpa [hasKey, hk] using h)

theorem lookupA_map_set_ne {α : Type} (l : List (String × α)) (k : String)
    (v : α) (k₁ : String) (h : k₁ ≠ k) :
    lookupA (l.map (setPair k v)) k₁ = lookupA l k₁ := by
  induction l with
  | nil => rfl
  | cons p rest ih =>
    obtain ⟨k', v'⟩ := p
    rw [List.map_cons]
    by_cases hk : k' = k
    · rw [setPair_pos k v k' v' hk]
      subst hk
      simp [lookupA, Ne.symm h, ih]
    · rw [setPair_neg k v k' v' hk]
      by_cases hk₁ : k' = k₁ <;> simp [lookupA, hk₁, ih]

theorem lookupA_append_single_ne {α : Type} (l : List (String × α))
    (k : String) (v : α) (k₁ : String) (h : k₁ ≠ k) :
    lookupA (l ++ [(k, v)]) k₁ = lookupA l k₁ := by
  induction l with
  | nil => simp [lookupA, Ne.symm h]
  | cons p rest ih =>
    obtain ⟨k', v'⟩ := p
    by_cases hk₁ : k' = k₁ <;> simp [lookupA, hk₁, ih]

theorem lookupA_dictSet_self {α : Type} (l : List (String × α)) (k : String)
    (v : α) (h : hasKey l k = true) : lookupA (dictSet l k v) k = some v := by
  unfold dictSet
  rw [if_pos h]
  exact lookupA_map_set l k v h

theorem lookupA_dictSet_ne {α : Type} (l : List (String × α)) (k : String)
    (v : α) (k₁ : String) (h : k₁ ≠ k) :
    lookupA (dictSet l k v) k₁ = lookupA l k₁ := by
  unfold dictSet
  by_cases hk : hasKey l k = true
  · rw [if_pos hk]; exact lookupA_map_set_ne l k v k₁ h
  · rw [if_neg hk]; exact lookupA_append_single_ne l k v k₁ h

theorem keys_map_set {α : Type} (l : List (String × α)) (k : String) (v : α) :
    keys (l.map (setPair k v)) = keys l := by
  induction l with
  | nil => rfl
  | cons p rest ih =>
    obtain ⟨k', v'⟩ := p
    rw [List.map_cons]
    by_cases h : k' = k
    · rw [setPair_pos k v k' v' h]
      simp [keys_cons, ih]
    · rw [setPair_neg k v k' v' h]
      simp [keys_cons, ih]

theorem keys_dictSet {α : Type} (l : List (String × α)) (k : String) (v : α)
    (h : hasKey l k = true) : keys (dictSet l k v) = keys l := by
  unfold dictSet
  rw [if_pos h]
  exact keys_map_set l k v

theorem hasKey_dictSet {α : Type} (l : List (String × α)) (k : String)
    (v : α) (k₁ : String) (h : hasKey l k₁ = true) :
    hasKey (dictSet l k v) k₁ = true := by
  by_cases hk : hasKey l k = true
  · rw [hasKey_eq_mem] at h ⊢
    rw [keys_dictSet l k v hk]
    exact h
  · unfold dictSet
    rw [if_neg hk]
    rw [hasKey_eq_mem] at h ⊢
    unfold keys at h ⊢
    rw [List.map_append]
    exact List.mem_append_left _ h

theorem hasKey_of_keys {α : Type} (t : List (String × α)) (k : String)
    (h : keys t = templateKeys) (hmem : k ∈ templateKeys) :
    hasKey t k = true := by
  rw [hasKey_eq_mem, h]
  exact hmem

/-! ### Lemmas about the individual update steps -/

theorem lookupA_setNumeric_ne (t : Features) (k : String) (v : Option ℚ)
    (k₁ : String) (h : k₁ ≠ k) :
    lookupA (setNumeric t k v) k₁ = lookupA t k₁ := by
  cases v with
  | none => rfl
  | some x => exact lookupA_dictSet_ne t k x k₁ h

theorem lookupA_setNumeric_self (t : Features) (k : String) (v : Option ℚ)
    (hk : hasKey t k = true) (h0 : lookupA t k = some 0) :
    lookupA (setNumeric t k v) k = some (encNum v) := by
  cases v with
  | none => simpa [setNumeric, encNum] using h0
  | some x => simpa [setNumeric, encNum] using lookupA_dictSet_self t k x hk

theorem hasKey_setNumeric (t : Features) (k : String) (v : Option ℚ)
    (k₁ : String) (h : hasKey t k₁ = true) :
    hasKey (setNumeric t k v) k₁ = true := by
  cases v with
  | none => exact h
  | some x => exact hasKey_dictSet t k x k₁ h

theorem keys_setNumeric (t : Features) (k : String) (v : Option ℚ)
    (hk : hasKey t k = true) : keys (setNumeric t k v) = keys t := by
  cases v with
  | none => rfl
  | some x => exact keys_dictSet t k x hk

theorem lookupA_setCategorical_ne (t : Features) (m : List (String × Int))
    (k : String) (v : Option String) (k₁ : String) (h : k₁ ≠ k) :
    lookupA (setCategorical t m k v) k₁ = lookupA t k₁ := by
  cases v with
  | none => rfl
  | some s =>
    cases hm : lookupA m s with
    | none => simp [setCategorical, hm]
    | some c => simp [setCategorical, hm, lookupA_dictSet_ne t k _ k₁ h]

theorem lookupA_setCategorical_self (t : Features) (m : List (String × Int))
    (k : String) (v : Option String) (hk : hasKey t k = true)
    (h0 : lookupA t k = some 0) :
    lookupA (setCategorical t m k v) k = some (encOrd m v) := by
  cases v with
  | none => simpa [setCategorical, encOrd] using h0
  | some s =>
    cases hm : lookupA m s with
    | none => simpa [setCategorical, encOrd, hm] using h0
    | some c =>
      simpa [setCategorical, encOrd, hm] using
        lookupA_dictSet_self t k ((c : ℚ)) hk

theorem hasKey_setCategorical (t : Features) (m : List (String × Int))
    (k : String) (v : Option String) (k₁ : String)
    (h : hasKey t k₁ = true) : hasKey (setCategorical t m k v) k₁ = true := by
  cases v with
  | none => exact h
  | some s =>
    cases hm : lookupA m s with
    | none => simpa [setCategorical, hm] using h
    | some c =>
      simpa [setCategorical, hm] using hasKey_dictSet t k ((c : ℚ)) k₁ h

theorem keys_setCategorical (t : Features) (m : List (String × Int))
    (k : String) (v : Option String) (hk : hasKey t k = true) :
    keys (setCategorical t m k v) = keys t := by
  cases v with
  | none => rfl
  | some s =>
    cases hm : lookupA m s with
    | none => simp [setCategorical, hm]
    | some c => simpa [setCategorical, hm] using keys_dictSet t k ((c : ℚ)) hk

theorem lookupA_applyMetro_ne (input : RawInput) (t : Features) (k : String)
    (h : k ≠ "metro_encoder") : lookupA (applyMetro input t) k = lookupA t k := by
  cases hv : input.metro with
  | none => simp [applyMetro, hv]
  | some v => simp [applyMetro, hv, lookupA_dictSet_ne t _ _ k h]

theorem lookupA_applyMetro_self (input : RawInput) (t : Features)
    (hk : hasKey t "metro_encoder" = true)
    (h0 : lookupA t "metro_encoder" = some 0) :
    lookupA (applyMetro input t) "metro_encoder" = some (encMetro input.metro) := by
  cases hv : input.metro with
  | none => simpa [applyMetro, hv, encMetro] using h0
  | some v =>
    simpa [applyMetro, hv, encMetro] using
      lookupA_dictSet_self t "metro_encoder" _ hk

theorem keys_applyMetro (input : RawInput) (t : Features)
    (h : keys t = templateKeys) : keys (applyMetro input t) = templateKeys := by
  cases hv : input.metro with
  | none => simpa [applyMetro, hv] using h
  | some v =>
    simp only [applyMetro, hv]
    rw [keys_dictSet t _ _ (hasKey_of_keys t _ h (by decide))]
    exact h

theorem applyPropertyType_ne (input : RawInput) (t t' : Features) (k : String)
    (h : applyPropertyType input t = some t') (hne : k ≠ "property_Квартира") :
    lookupA t' k = lookupA t k := by
  cases hv : input.property_type with
  | none =>
    simp [applyPropertyType, hv] at h
    subst h
    rfl
  | some v =>
    cases hm : lookupA propertyTypeMap v with
    | none => simp [applyPropertyType, hv, hm] at h
    | some c =>
      simp [applyPropertyType, hv, hm] at h
      subst h
      exact lookupA_dictSet_ne t _ _ k hne

theorem applyPropertyType_self (input : RawInput) (t t' : Features)
    (h : applyPropertyType input t = some t')
    (hk : hasKey t "property_Квартира" = true)
    (h0 : lookupA t "property_Квартира" = some 0) :
    ∃ p, encProp input.property_type = some p ∧
      lookupA t' "property_Квартира" = some p := by
  cases hv : input.property_type with
  | none =>
    simp [applyPropertyType, hv] at h
    subst h
    exact ⟨0, by simp [encProp], h0⟩
  | some v =>
    cases hm : lookupA propertyTypeMap v with
    | none => simp [applyPropertyType, hv, hm] at h
    | some c =>
      simp [applyPropertyType, hv, hm] at h
      subst h
      exact ⟨(c : ℚ), by simp [encProp, hm], lookupA_dictSet_self t _ _ hk⟩

theorem keys_applyPropertyType (input : RawInput) (t t' : Features)
    (h : applyPropertyType input t = some t')
    (hkeys : keys t = templateKeys) : keys t' = templateKeys := by
  cases hv : input.property_type with
  | none =>
    simp [applyPropertyType, hv] at h
    subst h
    exact hkeys
  | some v =>
    cases hm : lookupA propertyTypeMap v with
    | none => simp [applyPropertyType, hv, hm] at h
    | some c =>
      simp [applyPropertyType, hv, hm] at h
      subst h
      rw [keys_dictSet t _ _ (hasKey_of_keys t _ hkeys (by decide))]
      exact hkeys

theorem applyPropertyType_isSome (input : RawInput) (t : Features)
    (h : propertyTypeInDomain input.property_type = true) :
    (applyPropertyType input t).isSome = true := by
  cases hv : input.property_type with
  | none => simp [applyPropertyType, hv]
  | some v =>
    rw [hv] at h
    cases hm : lookupA propertyTypeMap v with
    | none => simp [propertyTypeInDomain, hm] at h
    | some c => simp [applyPropertyType, hv, hm]

/-! ### Lemmas about the unrolled loops -/

theorem lookupA_applyNumeric_ne (input : RawInput) (t : Features) (k : String)
    (h1 : k ≠ "total_area") (h2 : k ≠ "numbere_of_rooms")
    (h3 : k ≠ "ceiling_height") (h4 : k ≠ "Time_metro")
    (h5 : k ≠ "pass_elevators") (h6 : k ≠ "cargo_elevators") :
    lookupA (applyNumeric input t) k = lookupA t k := by
  simp only [applyNumeric]
  rw [lookupA_setNumeric_ne _ _ _ _ h6, lookupA_setNumeric_ne _ _ _ _ h5,
    lookupA_setNumeric_ne _ _ _ _ h4, lookupA_setNumeric_ne _ _ _ _ h3,
    lookupA_setNumeric_ne _ _ _ _ h2, lookupA_setNumeric_ne _ _ _ _ h1]

theorem lookupA_applyCategorical_ne (input : RawInput) (t : Features)
    (k : String) (h1 : k ≠ "renovation_encoded") (h2 : k ≠ "windows_encoded")
    (h3 : k ≠ "children_pets_encoded") (h4 : k ≠ "balcony_encoded")
    (h5 : k ≠ "parking_encoded") (h6 : k ≠ "bathroom_encoded") :
    lookupA (applyCategorical input t) k = lookupA t k := by
  simp only [applyCategorical]
  rw [lookupA_setCategorical_ne _ _ _ _ _ h6,
    lookupA_setCategorical_ne _ _ _ _ _ h5,
    lookupA_setCategorical_ne _ _ _ _ _ h4,
    lookupA_setCategorical_ne _ _ _ _ _ h3,
    lookupA_setCategorical_ne _ _ _ _ _ h2,
    lookupA_setCategorical_ne _ _ _ _ _ h1]

theorem keys_setNumeric_TK (t : Features) (k : String) (v : Option ℚ)
    (h : keys t = templateKeys) (hk : k ∈ templateKeys) :
    keys (setNumeric t k v) = templateKeys := by
  rw [keys_setNumeric t k v (hasKey_of_keys t k h hk)]
  exact h

theorem keys_setCategorical_TK (t : Features) (m : List (String × Int))
    (k : String) (v : Option String) (h : keys t = templateKeys)
    (hk : k ∈ templateKeys) : keys (setCategorical t m k v) = templateKeys := by
  rw [keys_setCategorical t m k v (hasKey_of_keys t k h hk)]
  exact h

theorem keys_applyNumeric (input : RawInput) (t : Features)
    (h : keys t = templateKeys) : keys (applyNumeric input t) = templateKeys := by
  exact keys_setNumeric_TK _ _ _
    (keys_setNumeric_TK _ _ _
      (keys_setNumeric_TK _ _ _
        (keys_setNumeric_TK _ _ _
          (keys_setNumeric_TK _ _ _
            (keys_setNumeric_TK _ _ _ h (by decide)) (by decide))
          (by decide)) (by decide)) (by decide)) (by decide)

theorem keys_applyCategorical (input : RawInput) (t : Features)
    (h : keys t = templateKeys) :
    keys (applyCategorical input t) = templateKeys := by
  exact keys_setCategorical_TK _ _ _ _
    (keys_setCategorical_TK _ _ _ _
      (keys_setCategorical_TK _ _ _ _
        (keys_setCategorical_TK _ _ _ _
          (keys_setCategorical_TK _ _ _ _
            (keys_setCategorical_TK _ _ _ _ h (by decide)) (by decide))
          (by decide)) (by decide)) (by decide)) (by decide)

theorem lookupA_applyNumeric_template (input : RawInput) :
    lookupA (applyNumeric input features_template) "total_area" =
      some (encNum input.total_area) ∧
    lookupA (applyNumeric input features_template) "numbere_of_rooms" =
      some (encNum input.numbere_of_rooms) ∧
    lookupA (applyNumeric input features_template) "ceiling_height" =
      some (encNum input.ceiling_height) ∧
    lookupA (applyNumeric input features_template) "Time_metro" =
      some (encNum input.Time_metro) ∧
    lookupA (applyNumeric input features_template) "pass_elevators" =
      some (encNum input.pass_elevators) ∧
    lookupA (applyNumeric input features_template) "cargo_elevators" =
      some (encNum input.cargo_elevators) := by
  refine ⟨?_, ?_, ?_, ?_, ?_, ?_⟩
  · simp only [applyNumeric]
    rw [lookupA_setNumeric_ne _ "cargo_elevators" _ "total_area" (by decide),
      lookupA_setNumeric_ne _ "pass_elevators" _ "total_area" (by decide),
      lookupA_setNumeric_ne _ "Time_metro" _ "total_area" (by decide),
      lookupA_setNumeric_ne _ "ceiling_height" _ "total_area" (by decide),
      lookupA_setNumeric_ne _ "numbere_of_rooms" _ "total_area" (by decide)]
    exact lookupA_setNumeric_self _ _ _ (by decide) (by decide)
  · simp only [applyNumeric]
    rw [lookupA_setNumeric_ne _ "cargo_elevators" _ "numbere_of_rooms" (by decide),
      lookupA_setNumeric_ne _ "pass_elevators" _ "numbere_of_rooms" (by decide),
      lookupA_setNumeric_ne _ "Time_metro" _ "numbere_of_rooms" (by decide),
      lookupA_setNumeric_ne _ "ceiling_height" _ "numbere_of_rooms" (by decide)]
    exact lookupA_setNumeric_self _ _ _
      (hasKey_setNumeric _ _ _ _ (by decide))
      (by rw [lookupA_setNumeric_ne _ "total_area" _ "numbere_of_rooms" (by decide)]
          decide)
  · simp only [applyNumeric]
    rw [lookupA_setNumeric_ne _ "cargo_elevators" _ "ceiling_height" (by decide),
      lookupA_setNumeric_ne _ "pass_elevators" _ "ceiling_height" (by decide),
      lookupA_setNumeric_ne _ "Time_metro" _ "ceiling_height" (by decide)]
    exact lookupA_setNumeric_self _ _ _
      (hasKey_setNumeric _ _ _ _ (hasKey_setNumeric _ _ _ _ (by decide)))
      (by rw [lookupA_setNumeric_ne _ "numbere_of_rooms" _ "ceiling_height" (by decide),
            lookupA_setNumeric_ne _ "total_area" _ "ceiling_height" (by decide)]
          decide)
  · simp only [applyNumeric]
    rw [lookupA_setNumeric_ne _ "cargo_elevators" _ "Time_metro" (by decide),
      lookupA_setNumeric_ne _ "pass_elevators" _ "Time_metro" (by decide)]
    exact lookupA_setNumeric_self _ _ _
      (hasKey_setNumeric _ _ _ _
        (hasKey_setNumeric _ _ _ _ (hasKey_setNumeric _ _ _ _ (by decide))))
      (by rw [lookupA_setNumeric_ne _ "ceiling_height" _ "Time_metro" (by decide),
            lookupA_setNumeric_ne _ "numbere_of_rooms" _ "Time_metro" (by decide),
            lookupA_setNumeric_ne _ "total_area" _ "Time_metro" (by decide)]
          decide)
  · simp only [applyNumeric]
    rw [lookupA_setNumeric_ne _ "cargo_elevators" _ "pass_elevators" (by decide)]
    exact lookupA_setNumeric_self _ _ _
      (hasKey_setNumeric _ _ _ _
        (hasKey_setNumeric _ _ _ _
          (hasKey_setNumeric _ _ _ _ (hasKey_setNumeric _ _ _ _ (by decide)))))
      (by rw [lookupA_setNumeric_ne _ "Time_metro" _ "pass_elevators" (by decide),
            lookupA_setNumeric_ne _ "ceiling_height" _ "pass_elevators" (by decide),
            lookupA_setNumeric_ne _ "numbere_of_rooms" _ "pass_elevators" (by decide),
            lookupA_setNumeric_ne _ "total_area" _ "pass_elevators" (by decide)]
          decide)
  · simp only [applyNumeric]
    exact lookupA_setNumeric_self _ _ _
      (hasKey_setNumeric _ _ _ _
        (hasKey_setNumeric _ _ _ _
          (hasKey_setNumeric _ _ _ _
            (hasKey_setNumeric _ _ _ _ (hasKey_setNumeric _ _ _ _ (by decide))))))
      (by rw [lookupA_setNumeric_ne _ "pass_elevators" _ "cargo_elevators" (by decide),
            lookupA_setNumeric_ne _ "Time_metro" _ "cargo_elevators" (by decide),
            lookupA_setNumeric_ne _ "ceiling_height" _ "cargo_elevators" (by decide),
            lookupA_setNumeric_ne _ "numbere_of_rooms" _ "cargo_elevators" (by decide),
            lookupA_setNumeric_ne _ "total_area" _ "cargo_elevators" (by decide)]
          decide)

theorem lookupA_applyCategorical_all (input : RawInput) (t : Features)
    (hkeys : keys t = templateKeys)
    (r0 : lookupA t "renovation_encoded" = some 0)
    (w0 : lookupA t "windows_encoded" = some 0)
    (c0 : lookupA t "children_pets_encoded" = some 0)
    (b0 : lookupA t "balcony_encoded" = some 0)
    (p0 : lookupA t "parking_encoded" = some 0)
    (q0 : lookupA t "bathroom_encoded" = some 0) :
    lookupA (applyCategorical input t) "renovation_encoded" =
      some (encOrd renovationMap input.renovation) ∧
    lookupA (applyCategorical input t) "windows_encoded" =
      some (encOrd windowsMap input.windows) ∧
    lookupA (applyCategorical input t) "children_pets_encoded" =
      some (encOrd childrenPetsMap input.children_pets) ∧
    lookupA (applyCategorical input t) "balcony_encoded" =
      some (encOrd balconyMap input.balcony) ∧
    lookupA (applyCategorical input t) "parking_encoded" =
      some (encOrd parkingMap input.parking) ∧
    lookupA (applyCategorical input t) "bathroom_encoded" =
      some (encOrd bathroomMap input.bathroom) := by
  refine ⟨?_, ?_, ?_, ?_, ?_, ?_⟩
  · simp only [applyCategorical]
    rw [lookupA_setCategorical_ne _ _ "bathroom_encoded" _ "renovation_encoded" (by decide),
      lookupA_setCategorical_ne _ _ "parking_encoded" _ "renovation_encoded" (by decide),
      lookupA_setCategorical_ne _ _ "balcony_encoded" _ "renovation_encoded" (by decide),
      lookupA_setCategorical_ne _ _ "children_pets_encoded" _ "renovation_encoded" (by decide),
      lookupA_setCategorical_ne _ _ "windows_encoded" _ "renovation_encoded" (by decide)]
    exact lookupA_setCategorical_self _ _ _ _
      (hasKey_of_keys t _ hkeys (by decide)) r0
  · simp only [applyCategorical]
    rw [lookupA_setCategorical_ne _ _ "bathroom_encoded" _ "windows_encoded" (by decide),
      lookupA_setCategorical_ne _ _ "parking_encoded" _ "windows_encoded" (by decide),
      lookupA_setCategorical_ne _ _ "balcony_encoded" _ "windows_encoded" (by decide),
      lookupA_setCategorical_ne _ _ "children_pets_encoded" _ "windows_encoded" (by decide)]
    exact lookupA_setCategorical_self _ _ _ _
      (hasKey_setCategorical _ _ _ _ _ (hasKey_of_keys t _ hkeys (by decide)))
      (by rw [lookupA_setCategorical_ne _ _ "renovation_encoded" _ "windows_encoded" (by decide)]
          exact w0)
  · simp only [applyCategorical]
    rw [lookupA_setCategorical_ne _ _ "bathroom_encoded" _ "children_pets_encoded" (by decide),
      lookupA_setCategorical_ne _ _ "parking_encoded" _ "children_pets_encoded" (by decide),
      lookupA_setCategorical_ne _ _ "balcony_encoded" _ "children_pets_encoded" (by decide)]
    exact lookupA_setCategorical_self _ _ _ _
      (hasKey_setCategorical _ _ _ _ _
        (hasKey_setCategorical _ _ _ _ _ (hasKey_of_keys t _ hkeys (by decide))))
      (by rw [lookupA_setCategorical_ne _ _ "windows_encoded" _ "children_pets_encoded" (by decide),
            lookupA_setCategorical_ne _ _ "renovation_encoded" _ "children_pets_encoded" (by decide)]
          exact c0)
  · simp only [applyCategorical]
    rw [lookupA_setCategorical_ne _ _ "bathroom_encoded" _ "balcony_encoded" (by decide),
      lookupA_setCategorical_ne _ _ "parking_encoded" _ "balcony_encoded" (by decide)]
    exact lookupA_setCategorical_self _ _ _ _
      (hasKey_setCategorical _ _ _ _ _
        (hasKey_setCategorical _ _ _ _ _
          (hasKey_setCategorical _ _ _ _ _ (hasKey_of_keys t _ hkeys (by decide)))))
      (by rw [lookupA_setCategorical_ne _ _ "children_pets_encoded" _ "balcony_encoded" (by decide),
            lookupA_setCategorical_ne _ _ "windows_encoded" _ "balcony_encoded" (by decide),
            lookupA_setCategorical_ne _ _ "renovation_encoded" _ "balcony_encoded" (by decide)]
          exact b0)
  · simp only [applyCategorical]
    rw [lookupA_setCategorical_ne _ _ "bathroom_encoded" _ "parking_encoded" (by decide)]
    exact lookupA_setCategorical_self _ _ _ _
      (hasKey_setCategorical _ _ _ _ _
        (hasKey_setCategorical _ _ _ _ _
          (hasKey_setCategorical _ _ _ _ _
            (hasKey_setCategorical _ _ _ _ _ (hasKey_of_keys t _ hkeys (by decide))))))
      (by rw [lookupA_setCategorical_ne _ _ "balcony_encoded" _ "parking_encoded" (by decide),
            lookupA_setCategorical_ne _ _ "children_pets_encoded" _ "parking_encoded" (by decide),
            lookupA_setCategorical_ne _ _ "windows_encoded" _ "parking_encoded" (by decide),
            lookupA_setCategorical_ne _ _ "renovation_encoded" _ "parking_encoded" (by decide)]
          exact p0)
  · simp only [applyCategorical]
    exact lookupA_setCategorical_self _ _ _ _
      (hasKey_setCategorical _ _ _ _ _
        (hasKey_setCategorical _ _ _ _ _
          (hasKey_setCategorical _ _ _ _ _
            (hasKey_setCategorical _ _ _ _ _
              (hasKey_setCategorical _ _ _ _ _ (hasKey_of_keys t _ hkeys (by decide)))))))
      (by rw [lookupA_setCategorical_ne _ _ "parking_encoded" _ "bathroom_encoded" (by decide),
            lookupA_setCategorical_ne _ _ "balcony_encoded" _ "bathroom_encoded" (by decide),
            lookupA_setCategorical_ne _ _ "children_pets_encoded" _ "bathroom_encoded" (by decide),
            lookupA_setCategorical_ne _ _ "windows_encoded" _ "bathroom_encoded" (by decide),
            lookupA_setCategorical_ne _ _ "renovation_encoded" _ "bathroom_encoded" (by decide)]
          exact q0)

theorem prepare_features_keys (input : RawInput) (out : Features)
    (h : prepare_features input = some out) : keys out = templateKeys := by
  unfold prepare_features at h
  cases hp : applyPropertyType input
      (applyCategorical input (applyNumeric input features_template)) with
  | none => rw [hp] at h; simp at h
  | some t3 =>
    rw [hp] at h
    simp at h
    subst h
    have k1 : keys (applyNumeric input features_template) = templateKeys :=
      keys_applyNumeric input features_template (by decide)
    have k2 := keys_applyCategorical input _ k1
    have k3 := keys_applyPropertyType input _ t3 hp k2
    exact keys_applyMetro input t3 k3

theorem prepare_features_lookup (input : RawInput) (out : Features)
    (h : prepare_features input = some out) :
    lookupA out "total_area" = some (encNum input.total_area) ∧
    lookupA out "numbere_of_rooms" = some (encNum input.numbere_of_rooms) ∧
    lookupA out "ceiling_height" = some (encNum input.ceiling_height) ∧
    lookupA out "Time_metro" = some (encNum input.Time_metro) ∧
    lookupA out "pass_elevators" = some (encNum input.pass_elevators) ∧
    lookupA out "cargo_elevators" = some (encNum input.cargo_elevators) ∧
    lookupA out "renovation_encoded" = some (encOrd renovationMap input.renovation) ∧
    lookupA out "windows_encoded" = some (encOrd windowsMap input.windows) ∧
    lookupA out "children_pets_encoded" =
      some (encOrd childrenPetsMap input.children_pets) ∧
    lookupA out "balcony_encoded" = some (encOrd balconyMap input.balcony) ∧
    lookupA out "parking_encoded" = some (encOrd parkingMap input.parking) ∧
    lookupA out "bathroom_encoded" = some (encOrd bathroomMap input.bathroom) ∧
    lookupA out "metro_encoder" = some (encMetro input.metro) ∧
    (∃ p, encProp input.property_type = some p ∧
      lookupA out "property_Квартира" = some p) ∧
    lookupA out "address_encod" = some 0 := by
  unfold prepare_features at h
  cases hp : applyPropertyType input
      (applyCategorical input (applyNumeric input features_template)) with
  | none => rw [hp] at h; simp at h
  | some t3 =>
    rw [hp] at h
    simp at h
    subst h
    have k1 : keys (applyNumeric input features_template) = templateKeys :=
      keys_applyNumeric input features_template (by decide)
    have k2 := keys_applyCategorical input _ k1
    have k3 := keys_applyPropertyType input _ t3 hp k2
    obtain ⟨n1, n2, n3, n4, n5, n6⟩ := lookupA_applyNumeric_template input
    obtain ⟨c1, c2, c3, c4, c5, c6⟩ :=
      lookupA_applyCategorical_all input (applyNumeric input features_template) k1
        (by rw [lookupA_applyNumeric_ne input _ "renovation_encoded" (by decide)
              (by decide) (by decide) (by decide) (by decide) (by decide)]
            decide)
        (by rw [lookupA_applyNumeric_ne input _ "windows_encoded" (by decide)
              (by decide) (by decide) (by decide) (by decide) (by decide)]
            decide)
        (by rw [lookupA_applyNumeric_ne input _ "children_pets_encoded" (by decide)
              (by decide) (by decide) (by decide) (by decide) (by decide)]
            decide)
        (by rw [lookupA_applyNumeric_ne input _ "balcony_encoded" (by decide)
              (by decide) (by decide) (by decide) (by decide) (by decide)]
            decide)
        (by rw [lookupA_applyNumeric_ne input _ "parking_encoded" (by decide)
              (by decide) (by decide) (by decide) (by decide) (by decide)]
            decide)
        (by rw [lookupA_applyNumeric_ne input _ "bathroom_encoded" (by decide)
              (by decide) (by decide) (by decide) (by decide) (by decide)]
            decide)
    refine ⟨?_, ?_, ?_, ?_, ?_, ?_, ?_, ?_, ?_, ?_, ?_, ?_, ?_, ?_, ?_⟩
    · rw [lookupA_applyMetro_ne input t3 "total_area" (by decide),
        applyPropertyType_ne input _ t3 "total_area" hp (by decide),
        lookupA_applyCategorical_ne input _ "total_area" (by decide) (by decide)
          (by decide) (by decide) (by decide) (by decide)]
      exact n1
    · rw [lookupA_applyMetro_ne input t3 "numbere_of_rooms" (by decide),
        applyPropertyType_ne input _ t3 "numbere_of_rooms" hp (by decide),
        lookupA_applyCategorical_ne input _ "numbere_of_rooms" (by decide)
          (by decide) (by decide) (by decide) (by decide) (by decide)]
      exact n2
    · rw [lookupA_applyMetro_ne input t3 "ceiling_height" (by decide),
        applyPropertyType_ne input _ t3 "ceiling_height" hp (by decide),
        lookupA_applyCategorical_ne input _ "ceiling_height" (by decide)
          (by decide) (by decide) (by decide) (by decide) (by decide)]
      exact n3
    · rw [lookupA_applyMetro_ne input t3 "Time_metro" (by decide),
        applyPropertyType_ne input _ t3 "Time_metro" hp (by decide),
        lookupA_applyCategorical_ne input _ "Time_metro" (by decide)
          (by decide) (by decide) (by decide) (by decide) (by decide)]
      exact n4
    · rw [lookupA_applyMetro_ne input t3 "pass_elevators" (by decide),
        applyPropertyType_ne input _ t3 "pass_elevators" hp (by decide),
        lookupA_applyCategorical_ne input _ "pass_elevators" (by decide)
          (by decide) (by decide) (by decide) (by decide) (by decide)]
      exact n5
    · rw [lookupA_applyMetro_ne input t3 "cargo_elevators" (by decide),
        applyPropertyType_ne input _ t3 "cargo_elevators" hp (by decide),
        lookupA_applyCategorical_ne input _ "cargo_elevators" (by decide)
          (by decide) (by decide) (by decide) (by decide) (by decide)]
      exact n6
    · rw [lookupA_applyMetro_ne input t3 "renovation_encoded" (by decide),
        applyPropertyType_ne input _ t3 "renovation_encoded" hp (by decide)]
      exact c1
    · rw [lookupA_applyMetro_ne input t3 "windows_encoded" (by decide),
        applyPropertyType_ne input _ t3 "windows_encoded" hp (by decide)]
      exact c2
    · rw [lookupA_applyMetro_ne input t3 "children_pets_encoded" (by decide),
        applyPropertyType_ne input _ t3 "children_pets_encoded" hp (by decide)]
      exact c3
    · rw [lookupA_applyMetro_ne input t3 "balcony_encoded" (by decide),
        applyPropertyType_ne input _ t3 "balcony_encoded" hp (by decide)]
      exact c4
    · rw [lookupA_applyMetro_ne input t3 "parking_encoded" (by decide),
        applyPropertyType_ne input _ t3 "parking_encoded" hp (by decide)]
      exact c5
    · rw [lookupA_applyMetro_ne input t3 "bathroom_encoded" (by decide),
        applyPropertyType_ne input _ t3 "bathroom_encoded" hp (by decide)]
      exact c6
    · exact lookupA_applyMetro_self input t3 (hasKey_of_keys t3 _ k3 (by decide))
        (by rw [applyPropertyType_ne input _ t3 "metro_encoder" hp (by decide),
              lookupA_applyCategorical_ne input _ "metro_encoder" (by decide)
                (by decide) (by decide) (by decide) (by decide) (by decide),
              lookupA_applyNumeric_ne input _ "metro_encoder" (by decide)
                (by decide) (by decide) (by decide) (by decide) (by decide)]
            decide)
    · obtain ⟨p, hp1, hp2⟩ := applyPropertyType_self input _ t3 hp
        (hasKey_of_keys _ _ k2 (by decide))
        (by rw [lookupA_applyCategorical_ne input _ "property_Квартира" (by decide)
              (by decide) (by decide) (by decide) (by decide) (by decide),
              lookupA_applyNumeric_ne input _ "property_Квартира" (by decide)
                (by decide) (by decide) (by decide) (by decide) (by decide)]
            decide)
      exact ⟨p, hp1, by
        rw [lookupA_applyMetro_ne input t3 "property_Квартира" (by decide)]
        exact hp2⟩
    · rw [lookupA_applyMetro_ne input t3 "address_encod" (by decide),
        applyPropertyType_ne input _ t3 "address_encod" hp (by decide),
        lookupA_applyCategorical_ne input _ "address_encod" (by decide)
          (by decide) (by decide) (by decide) (by decide) (by decide),
        lookupA_applyNumeric_ne input _ "address_encod" (by decide)
          (by decide) (by decide) (by decide) (by decide) (by decide)]
      decide

/-! ### Lemmas about column reconciliation -/

theorem lookupA_eq_none_of_hasKey_false {α : Type} (l : List (String × α))
    (k : String) (h : hasKey l k = false) : lookupA l k = none := by
  induction l with
  | nil => rfl
  | cons p rest ih =>
    obtain ⟨k', v'⟩ := p
    by_cases hk : k' = k
    · simp [hasKey, hk] at h
    · simp only [lookupA, hk, if_false]
      exact ih (by simpa [hasKey, hk] using h)

theorem lookupA_map_cols {α : Type} (cols : List String) (g : String → α)
    (k : String) :
    lookupA (cols.map (fun c => (c, g c))) k =
      if k ∈ cols then some (g k) else none := by
  induction cols with
  | nil => simp [lookupA]
  | cons c rest ih =>
    rw [List.map_cons]
    by_cases hc : c = k
    · subst hc
      simp [lookupA]
    · simp [lookupA, hc, Ne.symm hc, ih, List.mem_cons]

theorem keys_map_cols {α : Type} (cols : List String) (g : String → α) :
    keys (cols.map (fun c => (c, g c))) = cols := by
  induction cols with
  | nil => rfl
  | cons c rest ih => simp [keys_cons, ih]

/-- Any `propertyTypeMap` code for a value other than the apartment category
is 0. -/
theorem propertyTypeMap_ne_apartment (v : String) (c : Int)
    (h : lookupA propertyTypeMap v = some c) (hv : v ≠ "Квартира") : c = 0 := by
  simp only [propertyTypeMap, lookupA] at h
  split_ifs at h with h1 h2 h3 h4
  · exact absurd h1.symm hv
  · exact (Option.some.inj h).symm
  · exact (Option.some.inj h).symm
  · exact (Option.some.inj h).symm

/-! ### Concrete records used by the witnesses -/

/-- An input whose property type is outside the enumerated domain. -/
def rawUnknownProperty : RawInput :=
  ⟨none, none, none, none, none, none, none, none, none, none, none, none,
   some "Дом", none⟩

/-- A studio input: in-domain property type, two numeric fields present. -/
def rawStudio : RawInput :=
  ⟨some 40, some 1, none, none, none, none, none, none, none, none, none,
   none, some "Студия", none⟩

/-- The encoder output for `rawStudio`. -/
def outStudio : Features :=
  [("total_area", 40), ("numbere_of_rooms", 1), ("ceiling_height", 0),
   ("Time_metro", 0), ("pass_elevators", 0), ("cargo_elevators", 0),
   ("renovation_encoded", 0), ("windows_encoded", 0),
   ("children_pets_encoded", 0), ("balcony_encoded", 0),
   ("parking_encoded", 0), ("bathroom_encoded", 0), ("metro_encoder", 0),
   ("property_Квартира", 0), ("address_encod", 0)]

/-- The scenario input of the spec: area 65, two rooms, apartment, cosmetic
renovation, central zone, all other fields absent. -/
def rawScenario : RawInput :=
  ⟨some 65, some 2, none, none, none, none, some "косметический", none, none,
   none, none, none, some "Квартира", some "Центр"⟩

/-- The encoder output for `rawScenario`. -/
def outScenario : Features :=
  [("total_area", 65), ("numbere_of_rooms", 2), ("ceiling_height", 0),
   ("Time_metro", 0), ("pass_elevators", 0), ("cargo_elevators", 0),
   ("renovation_encoded", 1), ("windows_encoded", 0),
   ("children_pets_encoded", 0), ("balcony_encoded", 0),
   ("parking_encoded", 0), ("bathroom_encoded", 0), ("metro_encoder", 1),
   ("property_Квартира", 1), ("address_encod", 0)]

/-- An input exercising the six ordinal categorical fields: four in-domain
values, one out-of-domain window value, one absent field. -/
def rawCat : RawInput :=
  ⟨none, none, none, none, none, none, some "евроремонт", some "плохое", none,
   some "лоджия", some "на крыше", some "2 санузла", none, none⟩

/-- The encoder output for `rawCat`. -/
def outCat : Features :=
  [("total_area", 0), ("numbere_of_rooms", 0), ("ceiling_height", 0),
   ("Time_metro", 0), ("pass_elevators", 0), ("cargo_elevators", 0),
   ("renovation_encoded", 2), ("windows_encoded", 0),
   ("children_pets_encoded", 0), ("balcony_encoded", 3),
   ("parking_encoded", 4), ("bathroom_encoded", 2), ("metro_encoder", 0),
   ("property_Квартира", 0), ("address_encod", 0)]

/-- An input whose metro zone is the named zone `Спутник`. -/
def rawSputnik : RawInput :=
  ⟨none, none, none, none, none, none, none, none, none, none, none, none,
   none, some "Спутник"⟩

/-- An input whose metro zone is outside the static lookup. -/
def rawMetroUnknown : RawInput :=
  ⟨none, none, none, none, none, none, none, none, none, none, none, none,
   none, some "Неизвестный район"⟩

/-! ### Claims -/

/-- C1, counterexample.  The claim states that `prepare_features` never
fails, with every out-of-domain categorical value (the property-type field
included) degrading to a default.  The code contradicts it: for a present
property-type value outside the enumerated domain the unguarded indexing at
source line 144 raises `KeyError`, modelled here as `none`. -/
theorem C1_counterexample : prepare_features rawUnknownProperty = none := by
  decide

/-- C1, amended.  `prepare_features` raises no error on any input whose
property-type field is absent or in the enumerated property-type domain;
on such inputs every absent field and every out-of-domain value of the other
categorical fields degrades to a default instead of failing.  (Only the
property-type field escapes the claim: a present out-of-domain property type
raises, as `C1_counterexample` shows.) -/
theorem C1_encode_total_unless_unknown_property (input : RawInput)
    (h : propertyTypeInDomain input.property_type = true) :
    (prepare_features input).isSome = true := by
  unfold prepare_features
  rw [Option.isSome_map']
  exact applyPropertyType_isSome input _ h

/-- C1 witness: the amended theorem applied to the studio input. -/
theorem C1_encode_total_witness : (prepare_features rawStudio).isSome = true :=
  C1_encode_total_unless_unknown_property rawStudio (by decide)

/-- C2.  Whenever `prepare_features` produces an output, that output's key
sequence is exactly the fixed fifteen-key template schema, regardless of
which input fields were present: no key is missing and no extra key is
added. -/
theorem C2_fixed_key_set (input : RawInput) (out : Features)
    (h : prepare_features input = some out) : keys out = templateKeys :=
  prepare_features_keys input out h

/-- C2 witness: the key-set theorem applied to the scenario input. -/
theorem C2_fixed_key_set_witness : keys outScenario = templateKeys :=
  C2_fixed_key_set rawScenario outScenario (by decide)

/-- C3.  With `expected_columns` present, `create_input_dataframe` returns a
record whose columns are exactly `expected_columns` in that order; each
expected column copies the feature's value when the name is a key of
`features` and is 0 when it is not, and every feature key outside
`expected_columns` is dropped — all by exact name match. -/
theorem C3_reconcile_columns (features : Features) (cols : List String) :
    keys (create_input_dataframe features (some cols)) = cols ∧
    (∀ c, c ∈ cols →
      lookupA (create_input_dataframe features (some cols)) c =
        some ((lookupA features c).getD 0)) ∧
    (∀ c, c ∈ cols → hasKey features c = false →
      lookupA (create_input_dataframe features (some cols)) c = some 0) ∧
    (∀ k, hasKey (create_input_dataframe features (some cols)) k = true →
      k ∈ cols) := by
  refine ⟨?_, ?_, ?_, ?_⟩
  · exact keys_map_cols cols _
  · intro c hc
    simp only [create_input_dataframe]
    rw [lookupA_map_cols, if_pos hc]
  · intro c hc hf
    simp only [create_input_dataframe]
    rw [lookupA_map_cols, if_pos hc, lookupA_eq_none_of_hasKey_false features c hf]
    rfl
  · intro k hk
    rw [hasKey_eq_mem] at hk
    simp only [create_input_dataframe] at hk
    rw [keys_map_cols] at hk
    exact hk

/-- C3 witness: the spec scenario `reconcile(a/b, [b, c])`. -/
theorem C3_reconcile_columns_witness :
    keys (create_input_dataframe [("a", (1 : ℚ)), ("b", 2)]
        (some ["b", "c"])) = ["b", "c"] ∧
    lookupA (create_input_dataframe [("a", (1 : ℚ)), ("b", 2)]
        (some ["b", "c"])) "b" = some 2 ∧
    lookupA (create_input_dataframe [("a", (1 : ℚ)), ("b", 2)]
        (some ["b", "c"])) "c" = some 0 := by
  have h := C3_reconcile_columns [("a", (1 : ℚ)), ("b", 2)] ["b", "c"]
  refine ⟨h.1, ?_, h.2.2.1 "c" (by decide) (by decide)⟩
  rw [h.2.1 "b" (by decide)]
  decide

/-- C4.  Each of the six ordinal categorical output fields carries
`encOrd m v`: the table's integer code when the input field is present and
its value is in the table's domain, and 0 when the field is absent or its
value is outside the domain. -/
theorem C4_ordinal_encoding (input : RawInput) (out : Features)
    (h : prepare_features input = some out) :
    lookupA out "renovation_encoded" =
      some (encOrd renovationMap input.renovation) ∧
    lookupA out "windows_encoded" = some (encOrd windowsMap input.windows) ∧
    lookupA out "children_pets_encoded" =
      some (encOrd childrenPetsMap input.children_pets) ∧
    lookupA out "balcony_encoded" = some (encOrd balconyMap input.balcony) ∧
    lookupA out "parking_encoded" = some (encOrd parkingMap input.parking) ∧
    lookupA out "bathroom_encoded" =
      some (encOrd bathroomMap input.bathroom) := by
  obtain ⟨_, _, _, _, _, _, c1, c2, c3, c4, c5, c6, _, _, _⟩ :=
    prepare_features_lookup input out h
  exact ⟨c1, c2, c3, c4, c5, c6⟩

/-- C4 witness: in-domain values map to their codes, an out-of-domain window
value and an absent occupancy field map to 0. -/
theorem C4_ordinal_encoding_witness :
    lookupA outCat "renovation_encoded" = some 2 ∧
    lookupA outCat "windows_encoded" = some 0 ∧
    lookupA outCat "children_pets_encoded" = some 0 ∧
    lookupA outCat "balcony_encoded" = some 3 ∧
    lookupA outCat "parking_encoded" = some 4 ∧
    lookupA outCat "bathroom_encoded" = some 2 := by
  obtain ⟨c1, c2, c3, c4, c5, c6⟩ := C4_ordinal_encoding rawCat outCat (by decide)
  exact ⟨by rw [c1]; decide, by rw [c2]; decide, by rw [c3]; decide,
    by rw [c4]; decide, by rw [c5]; decide, by rw [c6]; decide⟩

/-- C5.  The `property_Квартира` output field is a single binary indicator:
1 when the property-type input is the apartment category, and 0 when the
field is absent or holds any other value (so all non-apartment categories
are indistinguishable in the output). -/
theorem C5_property_indicator (input : RawInput) (out : Features)
    (h : prepare_features input = some out) :
    (input.property_type = some "Квартира" →
      lookupA out "property_Квартира" = some 1) ∧
    (input.property_type = none →
      lookupA out "property_Квартира" = some 0) ∧
    (∀ v, input.property_type = some v → v ≠ "Квартира" →
      lookupA out "property_Квартира" = some 0) := by
  obtain ⟨_, _, _, _, _, _, _, _, _, _, _, _, _, hprop, _⟩ :=
    prepare_features_lookup input out h
  obtain ⟨p, hp1, hp2⟩ := hprop
  refine ⟨?_, ?_, ?_⟩
  · intro hv
    rw [hv] at hp1
    have hp' : some (1 : ℚ) = some p := by rw [← hp1]; decide
    rw [(Option.some.inj hp').symm] at hp2
    exact hp2
  · intro hv
    rw [hv] at hp1
    have hp' : some (0 : ℚ) = some p := by rw [← hp1]; decide
    rw [(Option.some.inj hp').symm] at hp2
    exact hp2
  · intro v hv hne
    rw [hv] at hp1
    cases hc : lookupA propertyTypeMap v with
    | none => simp [encProp, hc] at hp1
    | some cInt =>
      simp only [encProp, hc, Option.map_some'] at hp1
      rw [← Option.some.inj hp1, propertyTypeMap_ne_apartment v cInt hc hne] at hp2
      simpa using hp2

/-- C5 witness: a studio input yields indicator 0. -/
theorem C5_property_indicator_witness :
    lookupA outStudio "property_Квартира" = some 0 := by
  have h := C5_property_indicator rawStudio outStudio (by decide)
  exact h.2.2 "Студия" (by decide) (by decide)

/-- C6.  The `metro_encoder` output field equals the zone's code from the
static lookup when the metro field is present and its value is a key of the
lookup, and 0 otherwise (field absent, or zone name not in the lookup). -/
theorem C6_metro_encoding (input : RawInput) (out : Features)
    (h : prepare_features input = some out) :
    (∀ v c, input.metro = some v → lookupA metroMap v = some c →
      lookupA out "metro_encoder" = some ((c : ℚ))) ∧
    (input.metro = none → lookupA out "metro_encoder" = some 0) ∧
    (∀ v, input.metro = some v → lookupA metroMap v = none →
      lookupA out "metro_encoder" = some 0) := by
  obtain ⟨_, _, _, _, _, _, _, _, _, _, _, _, hm, _, _⟩ :=
    prepare_features_lookup input out h
  refine ⟨?_, ?_, ?_⟩
  · intro v c hv hc
    rw [hv] at hm
    simp only [encMetro, hc, Option.getD_some] at hm
    exact hm
  · intro hv
    rw [hv] at hm
    simpa [encMetro] using hm
  · intro v hv hc
    rw [hv] at hm
    simp only [encMetro, hc, Option.getD_none] at hm
    simpa using hm

/-- C6 witness: an unknown zone name maps to 0. -/
theorem C6_metro_encoding_witness :
    lookupA features_template "metro_encoder" = some 0 := by
  have h := C6_metro_encoding rawMetroUnknown features_template (by decide)
  exact h.2.2 "Неизвестный район" (by decide) (by decide)

/-- C7.  With `expected_columns` absent, `create_input_dataframe` returns the
feature record unchanged: same keys, same values, in encoder order. -/
theorem C7_reconcile_absent_columns (features : Features) :
    create_input_dataframe features none = features := rfl

/-- C8.  Each of the six numeric output fields carries `encNum v`: the input
value verbatim when the field is present, and 0 when it is absent. -/
theorem C8_numeric_passthrough (input : RawInput) (out : Features)
    (h : prepare_features input = some out) :
    lookupA out "total_area" = some (encNum input.total_area) ∧
    lookupA out "numbere_of_rooms" = some (encNum input.numbere_of_rooms) ∧
    lookupA out "ceiling_height" = some (encNum input.ceiling_height) ∧
    lookupA out "Time_metro" = some (encNum input.Time_metro) ∧
    lookupA out "pass_elevators" = some (encNum input.pass_elevators) ∧
    lookupA out "cargo_elevators" = some (encNum input.cargo_elevators) := by
  obtain ⟨n1, n2, n3, n4, n5, n6, _, _, _, _, _, _, _, _, _⟩ :=
    prepare_features_lookup input out h
  exact ⟨n1, n2, n3, n4, n5, n6⟩

/-- C8 witness: a present area is copied verbatim, an absent height is 0. -/
theorem C8_numeric_passthrough_witness :
    lookupA outScenario "total_area" = some 65 ∧
    lookupA outScenario "ceiling_height" = some 0 := by
  obtain ⟨n1, _, n3, _, _, _⟩ :=
    C8_numeric_passthrough rawScenario outScenario (by decide)
  exact ⟨by rw [n1]; decide, by rw [n3]; decide⟩

/-- C9.  The `address_encod` output field is always 0: no input field can
influence it. -/
theorem C9_address_placeholder (input : RawInput) (out : Features)
    (h : prepare_features input = some out) :
    lookupA out "address_encod" = some 0 := by
  obtain ⟨_, _, _, _, _, _, _, _, _, _, _, _, _, _, ha⟩ :=
    prepare_features_lookup input out h
  exact ha

/-- C9 witness: the placeholder is 0 on the categorical test input. -/
theorem C9_address_placeholder_witness :
    lookupA outCat "address_encod" = some 0 :=
  C9_address_placeholder rawCat outCat (by decide)

/-- C10.  In the transit-zone lookup only `Центр` has a non-zero code, and
any input whose metro field is one of the five other named zones encodes to
`metro_encoder = 0`, indistinguishable from an unknown or absent zone. -/
theorem C10_only_center_nonzero :
    lookupA metroMap "Центр" = some 1 ∧
    (∀ p, p ∈ metroMap → p.1 ≠ "Центр" → p.2 = 0) ∧
    (∀ input out, prepare_features input = some out →
      ∀ v, input.metro = some v →
        v ∈ ["Спутник", "Восточный", "Западный", "Северный", "Южный"] →
        lookupA out "metro_encoder" = some 0) := by
  refine ⟨by decide, by decide, ?_⟩
  intro input out h v hv hmem
  obtain ⟨_, _, _, _, _, _, _, _, _, _, _, _, hm, _, _⟩ :=
    prepare_features_lookup input out h
  rw [hv] at hm
  simp only [List.mem_cons, List.not_mem_nil, or_false] at hmem
  rcases hmem with rfl | rfl | rfl | rfl | rfl <;> exact hm.trans (by decide)

/-- C10 witness: zone `Спутник` encodes to 0. -/
theorem C10_only_center_nonzero_witness :
    lookupA metroMap "Центр" = some 1 ∧
    lookupA features_template "metro_encoder" = some 0 :=
  ⟨C10_only_center_nonzero.1,
   C10_only_center_nonzero.2.2 rawSputnik features_template (by decide)
     "Спутник" (by decide) (by decide)⟩
